import Mathlib

/-!
Verification development for the Megatron-LM distributed checkpointing core
(megatron/training/checkpointing.py and the dist_checkpointing protocol).
Python functions are shallowly embedded as executable Lean definitions;
fallible code returns `Except`, process termination is an explicit constructor,
and `print_rank_0` warnings are collected as explicit warning values.
-/

namespace Megatron

/-! ## String and path helpers (os.path.join, zero-padded decimal formatting) -/

/-- Decimal digit character, as used by Python decimal formatting. -/
def digitChar (n : Nat) : Char :=
  if n = 0 then '0' else if n = 1 then '1' else if n = 2 then '2'
  else if n = 3 then '3' else if n = 4 then '4' else if n = 5 then '5'
  else if n = 6 then '6' else if n = 7 then '7' else if n = 8 then '8'
  else if n = 9 then '9' else '*'

/-- Fuel-driven decimal digit expansion (most significant digit first). -/
def natToDigitsAux : Nat → Nat → List Char
  | 0, _ => []
  | fuel + 1, n =>
    if n < 10 then [digitChar n]
    else natToDigitsAux fuel (n / 10) ++ [digitChar (n % 10)]

/-- Decimal digits of a natural number (the fuel `n + 1` always suffices). -/
def natToDigits (n : Nat) : List Char := natToDigitsAux (n + 1) n

/-- Python format spec `0{w}d`: decimal representation left-padded with zeros
to width `w`. -/
def padZeros (w : Nat) (n : Nat) : String :=
  let s := natToDigits n
  String.mk (List.replicate (w - s.length) '0' ++ s)

/-- Model of `os.path.join` for a relative second component: inserts a slash
separator unless the first component is empty or already ends with a slash. -/
def osPathJoin (a b : String) : String :=
  if a = "" then b
  else if a.data.getLast? = some '/' then a ++ b
  else a ++ "/" ++ b

/-! ## Checkpoint version singleton (checkpointing.py lines 54 and 59-69)

The module-level `_CHECKPOINT_VERSION` is modelled as an explicit
`Option Int` state threaded through the accessors; the failed `assert`
of `set_checkpoint_version` is modelled as `Except.error`. -/

/-- Model of `set_checkpoint_version(value)`: asserts that an already stored
version equals the new value, then stores the value. -/
def set_checkpoint_version (st : Option Int) (value : Int) :
    Except String (Option Int) :=
  match st with
  | none => .ok (some value)
  | some v =>
    if v = value then .ok (some value)
    else .error "checkpoint versions do not match"

/-- Model of `get_checkpoint_version()`: returns the stored version. -/
def get_checkpoint_version (st : Option Int) : Option Int := st

/-! ## Tracker file name and metadata parsing (lines 228-232 and 242-281) -/

/-- Model of `get_checkpoint_tracker_filename(checkpoints_path)`. -/
def get_checkpoint_tracker_filename (checkpoints_path : String) : String :=
  osPathJoin checkpoints_path "latest_checkpointed_iteration.txt"

/-- Model of the Python `int()` string parse applied to the stripped tracker
content: an optional sign followed by a nonempty run of ASCII decimal digits.
(Underscore digit separators and non-ASCII digits accepted by Python are not
modelled.) -/
def pyIntOfString (s : String) : Option Int :=
  let core : List Char → Option Nat := fun ds =>
    if ds = [] ∨ ¬ ds.all Char.isDigit then none
    else some (ds.foldl (fun acc c => acc * 10 + (c.toNat - '0'.toNat)) 0)
  match s.data with
  | '-' :: rest => (core rest).map (fun n => -(n : Int))
  | '+' :: rest => (core rest).map (fun n => (n : Int))
  | l => (core l).map (fun n => (n : Int))

/-- Result of `read_metadata`: either a returned `(iteration, release)` pair,
or process termination (`sys.exit()` on invalid content, or the failed
`assert iteration > 0 or release`, both of which abort the process). -/
inductive MetadataResult
  | ok (iteration : Int) (release : Bool)
  | exitProcess
  deriving DecidableEq, Repr

/-- Model of `read_metadata(tracker_filename)` applied to the stripped file
content, in the single-process case (`torch.distributed` not initialized, so
the cross-rank max-reduction returns the local iteration unchanged). -/
def read_metadata (metastring : String) : MetadataResult :=
  match pyIntOfString metastring with
  | some n => if n > 0 then .ok n false else .exitProcess
  | none =>
    if metastring = "release" then .ok 0 true
    else .exitProcess

/-! ## Per-rank checkpoint naming (get_checkpoint_name, lines 130-169) -/

/-- Model of `get_checkpoint_name` with all rank/parallelism arguments
resolved (in the source, `None` arguments are filled from `mpu` defaults
before any of the logic modelled here runs). -/
def get_checkpoint_name (checkpoints_path : String) (iteration : Nat)
    (release : Bool) (pipeline_parallel : Bool) (tensor_rank : Nat)
    (pipeline_rank : Nat) (expert_parallel : Bool) (expert_rank : Nat)
    (return_base_dir : Bool) (basename : String) : String :=
  let directory := if release then "release" else "iter_" ++ padZeros 7 iteration
  if return_base_dir then osPathJoin checkpoints_path directory
  else
    let common_path :=
      if ¬ pipeline_parallel then
        osPathJoin (osPathJoin checkpoints_path directory)
          ("mp_rank_" ++ padZeros 2 tensor_rank)
      else
        osPathJoin (osPathJoin checkpoints_path directory)
          ("mp_rank_" ++ padZeros 2 tensor_rank ++ "_" ++ padZeros 3 pipeline_rank)
    let common_path :=
      if expert_parallel then common_path ++ "_" ++ padZeros 3 expert_rank
      else common_path
    osPathJoin common_path basename

/-! ## Async-save overlap check (save_checkpoint, lines 362-363 and 430-435) -/

/-- Checkpoint type enumeration (checkpointing.py lines 316-320). -/
inductive CheckpointType
  | LEGACY | LOCAL | GLOBAL | TORCH_DCP
  deriving DecidableEq, Repr

/-- Model of the async-related prologue of `save_checkpoint`: the first
component records whether the overlap warning at lines 362-363 is printed
(async saving enabled while the async queue is non-empty); the second
records whether the later `NotImplementedError` at lines 430-435 is raised
(async saving with a legacy checkpoint or a non-torch-dist global format).
The overlap check itself only prints and falls through. -/
def save_checkpoint_async_prologue (async_save queue_empty : Bool)
    (ckpt_type : CheckpointType) (ckpt_format : String) : Bool × Bool :=
  let warned := async_save && !queue_empty
  let raised := async_save &&
    (match ckpt_type with
     | .LEGACY => true
     | .GLOBAL => ckpt_format != "torch_dist"
     | _ => false)
  (warned, raised)

/-! ## Base checkpoint resolution (_load_base_checkpoint, lines 954-1011)

The filesystem-dependent inputs (resolved non-persistent iteration, tracker
file existence and parsed content) are passed in explicitly; `print_rank_0`
warnings are collected as explicit values in program order. -/

/-- Warnings printed by the load path, identified by their source location. -/
inductive LoadWarning
  | nonPersistentOlder  -- line 996: non-persistent checkpoints are older
  | metadataNotFound    -- lines 1002-1003: will start from random
  | exitOnMissing       -- line 1006: exit-on-missing-checkpoint set, exiting
  | rngIgnored          -- line 1335: RNG state will be ignored
  | rerunIgnored        -- line 1387: Rerun state will be ignored
  deriving DecidableEq, Repr

/-- Inputs of `_load_base_checkpoint` after resolving filesystem state. -/
structure BaseLoadArgs where
  non_persistent_iteration : Int  -- result of _get_non_persistent_iteration
  tracker_exists : Bool           -- isfile(tracker_filename), with load_dir set
  tracker_iteration : Int         -- read_metadata iteration when the tracker exists
  tracker_release : Bool          -- read_metadata release flag when the tracker exists
  ckpt_step : Option Int          -- args.ckpt_step (None when absent)
  exit_on_missing_checkpoint : Bool
  rank0 : Bool
  deriving Repr

/-- Which checkpoint `_load_base_checkpoint` decides to load, the sentinel
`(None, "", False, None)` return, or process exit. -/
inductive BaseLoadResult
  | nonPersistent (iteration : Int)
  | persistent (iteration : Int) (release : Bool)
  | noCheckpoint
  | exitProcess
  deriving DecidableEq, Repr

/-- Outcome of `_load_base_checkpoint`: decision plus printed warnings. -/
structure BaseLoadOutcome where
  result : BaseLoadResult
  warnings : List LoadWarning
  deriving DecidableEq, Repr

/-- Model of `_load_base_checkpoint` (lines 954-1011): choose between the
non-persistent and persistent checkpoint by comparing iterations, and handle
the missing-tracker case. The `ckpt_step` override only applies when truthy
(Python `if getattr(args, "ckpt_step", None):`). -/
def load_base_checkpoint (a : BaseLoadArgs) : BaseLoadOutcome :=
  let trackerIter : Int := if a.tracker_exists then a.tracker_iteration else -1
  let release := if a.tracker_exists then a.tracker_release else false
  let iteration := match a.ckpt_step with
    | some s => if s ≠ 0 then s else trackerIter
    | none => trackerIter
  if a.non_persistent_iteration ≠ -1 ∧ a.non_persistent_iteration ≥ iteration then
    ⟨.nonPersistent a.non_persistent_iteration, []⟩
  else
    let w0 := if a.non_persistent_iteration ≠ -1 then [LoadWarning.nonPersistentOlder] else []
    if iteration = -1 then
      let w1 := if ¬ a.rank0 then [LoadWarning.metadataNotFound] else []
      if a.exit_on_missing_checkpoint then
        ⟨.exitProcess, w0 ++ w1 ++ [LoadWarning.exitOnMissing]⟩
      else ⟨.noCheckpoint, w0 ++ w1⟩
    else ⟨.persistent iteration release, w0⟩

/-- Result of `load_checkpoint` as far as the missing-checkpoint handling is
concerned (lines 1426-1434): the `(0, 0)` return on the sentinel, process
exit, or continuation with a loaded checkpoint. -/
inductive LoadCheckpointResult
  | returns (iteration : Int) (num_floating_point_operations_so_far : Int)
  | exited
  | proceedsWith (r : BaseLoadResult)
  deriving DecidableEq, Repr

/-- Model of the `state_dict is None` handling in `load_checkpoint`
(lines 1426-1434). -/
def load_checkpoint_missing_behavior (a : BaseLoadArgs) : LoadCheckpointResult :=
  match (load_base_checkpoint a).result with
  | .noCheckpoint => .returns 0 0
  | .exitProcess => .exited
  | r => .proceedsWith r

/-! ## Topology reconciliation in load_checkpoint (lines 1306-1387)

For a torch_dist checkpoint, `load_checkpoint` decides which sub-states
(RNG, optimizer, rerun state machine) to request in the sharded state dict,
based on the parallel topology recorded in the checkpoint versus the
current run. -/

/-- Inputs of the torch_dist reconciliation logic. -/
structure ReconcileArgs where
  ckpt_tp : Int
  ckpt_pp : Int
  run_tp : Int
  run_pp : Int
  ckpt_world_size : Int
  run_world_size : Int
  ckpt_dp : Int
  run_dp : Int
  release : Bool
  finetune : Bool
  no_load_rng : Bool
  ckpt_no_save_rng : Bool            -- no_save_rng recorded in checkpoint args
  no_load_optim : Bool
  ckpt_no_save_optim : Bool          -- no_save_optim recorded in checkpoint args
  use_distributed_optimizer : Bool
  ckpt_sharding_type : Option String -- distrib_optim_sharding_type from content metadata
  ckpt_fully_parallel_save : Bool    -- checkpoint args flag, backward-compat default
  has_rerun_state : Bool             -- rerun_state_machine key present in checkpoint
  rerun_validate_ok : Bool           -- rerun_state_machine.validate_state_dict result
  deriving Repr

/-- Outcome of the torch_dist reconciliation: which sub-states are requested
in the sharded state dict, whether the `RuntimeError` at lines 1356-1358 is
raised, and the warnings printed before control leaves this section. -/
structure ReconcileOutcome where
  rng_requested : Bool
  optim_requested : Bool
  rerun_requested : Bool
  raised : Bool
  warnings : List LoadWarning
  deriving DecidableEq, Repr

/-- Model of the distrib_optim_sharding_type resolution (lines 1346-1354):
use the sharding type from the content metadata, falling back to the
backward-compatibility default derived from the checkpoint args. -/
def resolved_sharding_type (a : ReconcileArgs) : String :=
  match a.ckpt_sharding_type with
  | some s => s
  | none =>
    if a.ckpt_fully_parallel_save then "fully_sharded_model_space"
    else "dp_zero_gather_scatter"

/-- Model of the sub-state reconciliation for a torch_dist checkpoint
(load_checkpoint lines 1306-1387): RNG state is requested only when the
(TP, PP) topology matches (else a warning is printed); optimizer state is
requested independently of topology, but a distributed optimizer whose
checkpoint sharding type is not fully_sharded_model_space raises a
RuntimeError on (TP, PP) mismatch; rerun state is requested only when world
size, (TP, PP), and DP all match (else a warning is printed, unless the
RuntimeError aborted the function first). -/
def torch_dist_reconcile (a : ReconcileArgs) : ReconcileOutcome :=
  let tpppMatch : Bool := a.ckpt_tp == a.run_tp && a.ckpt_pp == a.run_pp
  let rng_requested := tpppMatch && !a.release && !a.finetune
    && !a.no_load_rng && !a.ckpt_no_save_rng
  let w1 := if tpppMatch then [] else [LoadWarning.rngIgnored]
  let optim_requested := !a.release && !a.finetune
    && !a.no_load_optim && !a.ckpt_no_save_optim
  let raised := optim_requested && a.use_distributed_optimizer && !tpppMatch
    && resolved_sharding_type a != "fully_sharded_model_space"
  if raised then
    ⟨rng_requested, optim_requested, false, true, w1⟩
  else
    let topoMatch : Bool := a.ckpt_world_size == a.run_world_size
      && tpppMatch && a.ckpt_dp == a.run_dp
    let rerun_requested := topoMatch && !a.release && !a.finetune
      && a.has_rerun_state && a.rerun_validate_ok
    let w2 := if topoMatch then [] else [LoadWarning.rerunIgnored]
    ⟨rng_requested, optim_requested, rerun_requested, false, w1 ++ w2⟩

/-! ## Strict-mode key reconciliation (dist_checkpointing validation)

Modelled from the spec: the Validation Engine strict-mode key reconciliation
of megatron.core.dist_checkpointing.validation, whose module is not among
the excerpted sources (only its unit tests are, in
tests/unit_tests/dist_checkpointing/test_serialization.py). The orientation
of the two key sets and the shape of the error messages follow the behavior
those tests pin down: keys requested by the ranks but absent on disk are the
unexpected keys, and on-disk keys not requested are the missing keys. -/

/-- Substring check on character lists. -/
def listContainsSub (sub : List Char) : List Char → Bool
  | [] => sub.isEmpty
  | c :: t => sub.isPrefixOf (c :: t) || listContainsSub sub t

/-- Substring check on strings. -/
def strContainsSub (s sub : String) : Bool := listContainsSub sub.data s.data

/-- Modelled from the spec: StrictHandling policy enumeration of
megatron.core.dist_checkpointing.validation (not in the excerpted sources). -/
inductive StrictHandling
  | ASSUME_OK_UNEXPECTED
  | LOG_UNEXPECTED
  | LOG_ALL
  | RAISE_UNEXPECTED
  | RAISE_ALL
  | RETURN_UNEXPECTED
  | RETURN_ALL
  | IGNORE_ALL
  deriving DecidableEq, Repr

/-- Result of applying a strict-handling policy to the computed key
mismatch: proceed silently, proceed with a logged warning, return the
mismatch sets to the caller, or raise a CheckpointingException. -/
inductive StrictResult
  | proceed
  | proceedLogged (msg : String)
  | returned (missing unexpected : Finset String)
  | raised (msg : String)
  deriving DecidableEq

/-- Modelled from the spec: the missing/unexpected key computation of the
Validation Engine (not in the excerpted sources). Missing keys are on-disk
keys not requested; unexpected keys are requested keys absent on disk, as
pinned by the TestNonStrictLoad unit tests. -/
def determine_missing_and_unexpected (requested ckpt_keys : List String) :
    List String × List String :=
  (ckpt_keys.filter (fun k => ¬ requested.contains k),
   requested.filter (fun k => ¬ ckpt_keys.contains k))

/-- Error/log message naming the unexpected keys. -/
def unexpectedMsg (unexpected : List String) : String :=
  "Unexpected keys: " ++ String.intercalate ", " unexpected

/-- Error/log message naming the missing keys. -/
def missingMsg (missing : List String) : String :=
  "Missing keys: " ++ String.intercalate ", " missing

/-- Combined message for the ALL policies; each part appears only when its
key set is nonempty. -/
def mismatchMsg (missing unexpected : List String) : String :=
  (if missing.isEmpty then "" else missingMsg missing ++ ". ")
  ++ (if unexpected.isEmpty then "" else unexpectedMsg unexpected)

/-- Modelled from the spec: application of a StrictHandling policy to the
computed mismatch (megatron.core.dist_checkpointing.validation, not in the
excerpted sources). RAISE policies raise a CheckpointingException when their
key sets are nonempty, LOG policies log and proceed, RETURN policies return
the sets to the caller (RETURN_UNEXPECTED returns an empty missing set), and
ASSUME_OK_UNEXPECTED / IGNORE_ALL proceed without computing a report. -/
def maybe_report_missing_and_unexpected (missing unexpected : List String) :
    StrictHandling → StrictResult
  | .ASSUME_OK_UNEXPECTED => .proceed
  | .LOG_UNEXPECTED =>
    if unexpected.isEmpty then .proceed else .proceedLogged (unexpectedMsg unexpected)
  | .LOG_ALL =>
    if missing.isEmpty && unexpected.isEmpty then .proceed
    else .proceedLogged (mismatchMsg missing unexpected)
  | .RAISE_UNEXPECTED =>
    if unexpected.isEmpty then .proceed else .raised (unexpectedMsg unexpected)
  | .RAISE_ALL =>
    if missing.isEmpty && unexpected.isEmpty then .proceed
    else .raised (mismatchMsg missing unexpected)
  | .RETURN_UNEXPECTED => .returned ∅ unexpected.toFinset
  | .RETURN_ALL => .returned missing.toFinset unexpected.toFinset
  | .IGNORE_ALL => .proceed

/-- Modelled from the spec: the key-set validation step of
`dist_checkpointing.load` (not in the excerpted sources): compute the
missing/unexpected key sets from the requested and on-disk key sets and
apply the strict-handling policy. -/
def validate_load_keys (requested ckpt_keys : List String)
    (strict : StrictHandling) : StrictResult :=
  let mu := determine_missing_and_unexpected requested ckpt_keys
  maybe_report_missing_and_unexpected mu.1 mu.2 strict

/-! ## Resharding with shape-mismatch tolerance (dist_checkpointing load)

Modelled from the spec: the Resharding Engine of
megatron.core.dist_checkpointing (not in the excerpted sources), for a
one-dimensional global tensor: the requested shard region is copied from the
intersecting on-disk region; positions not covered by the on-disk extent are
zero-filled, which is only legal when the requesting shard set
allow_shape_mismatch, otherwise a CheckpointingException is raised whenever
the requested global extent differs from the on-disk extent. -/
def load_sharded_tensor (disk : List Int) (req_len : Nat)
    (allow_shape_mismatch : Bool) : Except String (List Int) :=
  if ¬ allow_shape_mismatch ∧ req_len ≠ disk.length then
    .error "CheckpointingException: global shape mismatch"
  else
    .ok ((List.range req_len).map (fun i =>
      if h : i < disk.length then disk.get ⟨i, h⟩ else 0))

/-! ## ShardedTensorFactory build/merge round trip (dist_checkpointing)

Modelled from the spec: the ShardedTensorFactory mechanism of
megatron.core.dist_checkpointing.mapping (not in the excerpted sources):
saving applies the build function, which expands one logical tensor into
several independently keyed ShardedTensors; loading reads each part back by
key and applies the merge function to recombine them. Tensors are modelled
as integer lists. -/

/-- Deferred-construction entity: key, representative data, build function
and merge function. -/
structure ShardedTensorFactory where
  key : String
  data : List Int
  build_fn : String → List Int → List (String × List Int)
  merge_fn : List (List Int) → List Int

/-- Modelled from the spec: saving a factory writes each built part under
its own key (not in the excerpted sources). -/
def factory_save (f : ShardedTensorFactory) : List (String × List Int) :=
  f.build_fn f.key f.data

/-- Checkpoint lookup of one saved part by key. -/
def ckpt_lookup (ckpt : List (String × List Int)) (k : String) : List Int :=
  match ckpt.find? (fun p => p.1 = k) with
  | some p => p.2
  | none => []

/-- Modelled from the spec: loading a factory reads each built part key from
the checkpoint and applies the merge function (not in the excerpted
sources). -/
def factory_load (f : ShardedTensorFactory) (ckpt : List (String × List Int)) :
    List Int :=
  f.merge_fn ((f.build_fn f.key f.data).map (fun p => ckpt_lookup ckpt p.1))

/-- Pointwise sum of two equal-length integer lists. -/
def pointwiseAdd (a b : List Int) : List Int := List.zipWith (· + ·) a b

/-- Python `sum` over a nonempty list of tensors: left fold of pointwise
addition. -/
def sumTensors : List (List Int) → List Int
  | [] => []
  | x :: xs => xs.foldl pointwiseAdd x

/-- The factory of the test scenario: the build function produces three
independently keyed parts, each equal to the base tensor, and the merge
function is `sum` (test_can_mix_sharded_tensors_and_factories). -/
def factory3 (key : String) (base : List Int) : ShardedTensorFactory where
  key := key
  data := base
  build_fn := fun k t => [(k ++ "part1", t), (k ++ "part2", t), (k ++ "part3", t)]
  merge_fn := sumTensors

/-! ## Concrete configurations used by the claim theorems -/

/-- Concrete load configuration with a (TP, PP) topology mismatch
(checkpoint TP 2 vs run TP 1) and a distributed optimizer saved with
dp_zero_gather_scatter sharding. -/
def mismatchArgs : ReconcileArgs :=
  ⟨2, 1, 1, 1, 8, 4, 4, 4, false, false, false, false, false, false, true,
    some "dp_zero_gather_scatter", false, true, true⟩

/-- Variant of `mismatchArgs` without a distributed optimizer, so the load
proceeds past the reconciliation. -/
def mismatchNoOptArgs : ReconcileArgs :=
  ⟨2, 1, 1, 1, 8, 4, 4, 4, false, false, false, false, false, false, false,
    none, false, true, true⟩

/-- Non-persistent checkpoint at iteration 5, persistent tracker at 3. -/
def npNewerArgs : BaseLoadArgs := ⟨5, true, 3, false, none, false, false⟩

/-- Non-persistent checkpoint at iteration 2, persistent tracker at 7. -/
def npOlderArgs : BaseLoadArgs := ⟨2, true, 7, false, none, false, false⟩

/-- Missing-checkpoint configuration without the exit flag. -/
def missingArgs : BaseLoadArgs := ⟨-1, false, 0, false, none, false, false⟩

/-- Missing-checkpoint configuration with the exit flag set. -/
def missingExitArgs : BaseLoadArgs := ⟨-1, false, 0, false, none, true, false⟩

/-! ## Shared helper lemmas -/

/-- Appending a pointwise-doubled list once more triples every entry. -/
theorem zipWith_add_three (l : List Int) :
    pointwiseAdd (pointwiseAdd l l) l = l.map (fun x => 3 * x) := by
  induction l with
  | nil => rfl
  | cons a t ih =>
    simp only [pointwiseAdd, List.zipWith_cons_cons, List.map_cons] at *
    refine congrArg₂ _ (by ring) ih

/-- Folding pointwise addition over three copies of a list triples it. -/
theorem sumTensors_three (l : List Int) :
    sumTensors [l, l, l] = l.map (fun x => 3 * x) := by
  simpa [sumTensors, List.foldl] using zipWith_add_three l

/-- Index-wise description of the resharding copy loop: copying the on-disk
values over the requested range and zero-filling the rest equals the on-disk
list truncated to the requested extent and padded with zeros. -/
theorem reshard_copy_eq (disk : List Int) (r : Nat) :
    (List.range r).map (fun i =>
        if h : i < disk.length then disk.get ⟨i, h⟩ else 0)
      = disk.take r ++ List.replicate (r - disk.length) 0 := by
  apply List.ext_getElem
  · simp only [List.length_map, List.length_range, List.length_append,
      List.length_take, List.length_replicate]
    omega
  · intro i h1 h2
    simp only [List.length_map, List.length_range] at h1
    simp only [List.getElem_map, List.getElem_range]
    by_cases hd : i < disk.length
    · rw [dif_pos hd, List.getElem_append_left (by simp; omega)]
      simp [List.getElem_take, List.get_eq_getElem]
    · rw [dif_neg hd,
        List.getElem_append_right (by simp; omega)]
      simp

/-- A string is empty exactly when its character list is. -/
theorem string_eq_empty_iff (s : String) : s = "" ↔ s.data = [] := by
  rw [String.ext_iff]

/-- Appending a nonempty string yields a nonempty string. -/
theorem append_ne_empty (a b : String) (hb : b ≠ "") : a ++ b ≠ "" := by
  rw [ne_eq, string_eq_empty_iff, String.data_append]
  intro hab
  exact hb ((string_eq_empty_iff b).mpr (List.append_eq_nil.mp hab).2)

/-- The last character of an appended string comes from the nonempty second
component. -/
theorem getLast?_str_append (a b : String) (hb : b ≠ "") :
    (a ++ b).data.getLast? = b.data.getLast? := by
  rw [String.data_append]
  exact List.getLast?_append_of_ne_nil _
    (fun h => hb ((string_eq_empty_iff b).mpr h))

/-- Decimal digit characters are never the path separator. -/
theorem digitChar_ne_slash (n : Nat) : digitChar n ≠ '/' := by
  unfold digitChar
  split_ifs <;> decide

/-- The digit expansion never contains the path separator. -/
theorem slash_not_in_natToDigitsAux (fuel n : Nat) :
    '/' ∉ natToDigitsAux fuel n := by
  induction fuel generalizing n with
  | zero => simp [natToDigitsAux]
  | succ f ih =>
    unfold natToDigitsAux
    by_cases h : n < 10
    · simp only [if_pos h, List.mem_singleton]
      exact fun hq => digitChar_ne_slash n hq.symm
    · simp only [if_neg h, List.mem_append, List.mem_singleton]
      rintro (hq | hq)
      · exact ih _ hq
      · exact digitChar_ne_slash _ hq.symm

/-- With nonzero fuel the digit expansion is nonempty. -/
theorem natToDigitsAux_ne_nil (fuel n : Nat) (hf : fuel ≠ 0) :
    natToDigitsAux fuel n ≠ [] := by
  cases fuel with
  | zero => exact absurd rfl hf
  | succ f =>
    unfold natToDigitsAux
    by_cases h : n < 10
    · simp [h]
    · simp [h]

/-- Character-list view of the zero-padded decimal representation. -/
theorem padZeros_data (w n : Nat) :
    (padZeros w n).data
      = List.replicate (w - (natToDigits n).length) '0' ++ natToDigits n := rfl

/-- Zero-padded decimal representations are nonempty. -/
theorem padZeros_ne_empty (w n : Nat) : padZeros w n ≠ "" := by
  rw [ne_eq, string_eq_empty_iff, padZeros_data]
  intro h
  exact natToDigitsAux_ne_nil _ _ (Nat.succ_ne_zero n)
    (List.append_eq_nil.mp h).2

/-- Zero-padded decimal representations never contain the separator. -/
theorem slash_not_in_padZeros (w n : Nat) : '/' ∉ (padZeros w n).data := by
  rw [padZeros_data]
  intro hmem
  rcases List.mem_append.mp hmem with h | h
  · exact absurd (List.eq_of_mem_replicate h) (by decide)
  · exact slash_not_in_natToDigitsAux _ _ h

/-- Zero-padded decimal representations do not end with the separator. -/
theorem padZeros_getLast?_ne_slash (w n : Nat) :
    (padZeros w n).data.getLast? ≠ some '/' := by
  intro hq
  exact slash_not_in_padZeros w n (List.mem_of_mem_getLast? hq)

/-- Unfolding of `osPathJoin` in the separator-inserting case. -/
theorem osPathJoin_eq (a b : String) (h1 : a ≠ "")
    (h2 : a.data.getLast? ≠ some '/') : osPathJoin a b = a ++ "/" ++ b := by
  unfold osPathJoin
  rw [if_neg h1, if_neg h2]

/-- A string ending in a zero-padded number does not end with the
separator. -/
theorem ends_pad_getLast?_ne (s : String) (w n : Nat) :
    (s ++ padZeros w n).data.getLast? ≠ some '/' := by
  rw [getLast?_str_append s _ (padZeros_ne_empty w n)]
  exact padZeros_getLast?_ne_slash w n

/-- A string whose final component ends in a zero-padded number does not end
with the separator. -/
theorem ends_with_pad_getLast?_ne (s t : String) (w n : Nat) :
    (s ++ (t ++ padZeros w n)).data.getLast? ≠ some '/' := by
  rw [getLast?_str_append s _ (append_ne_empty t _ (padZeros_ne_empty w n))]
  exact ends_pad_getLast?_ne t w n

end Megatron

namespace Megatron

/-! ## Claim theorems -/

/-- C10: the module-level checkpoint version is single-assignment:
`set_checkpoint_version` stores its argument on the first call, a later call
with the same value leaves the state unchanged, a later call with a
different value fails the assertion, and `get_checkpoint_version` returns
`none` before the first set and the stored value afterwards. -/
theorem checkpoint_version_single_assignment (v w : Int) (st : Option Int)
    (hne : w ≠ v) :
    set_checkpoint_version none v = .ok (some v) ∧
    set_checkpoint_version (some v) v = .ok (some v) ∧
    set_checkpoint_version (some w) v
      = .error "checkpoint versions do not match" ∧
    get_checkpoint_version (none : Option Int) = none ∧
    get_checkpoint_version st = st := by
  refine ⟨rfl, ?_, ?_, rfl, rfl⟩ <;> simp [set_checkpoint_version, hne]

/-- Witness for C10 at version values 3 and 2 and state `some 5`. -/
theorem checkpoint_version_single_assignment_witness :
    set_checkpoint_version none 3 = .ok (some 3) ∧
    set_checkpoint_version (some 3) 3 = .ok (some 3) ∧
    set_checkpoint_version (some 2) 3
      = .error "checkpoint versions do not match" ∧
    get_checkpoint_version (none : Option Int) = none ∧
    get_checkpoint_version (some 5) = some 5 :=
  checkpoint_version_single_assignment 3 2 (some 5) (by decide)

/-- C5: when `save_checkpoint` runs with async saving enabled while the
async queue is non-empty, the overlap warning is printed, and the outcome of
the async prologue (in particular whether the later `NotImplementedError` is
raised) is independent of the queue state: the overlap check itself never
raises or blocks. -/
theorem async_overlap_warns_and_proceeds (a qe : Bool) (t : CheckpointType)
    (fmt : String) :
    (save_checkpoint_async_prologue a qe t fmt).1 = (a && !qe) ∧
    (save_checkpoint_async_prologue a qe t fmt).2
      = (save_checkpoint_async_prologue a true t fmt).2 := by
  exact ⟨rfl, rfl⟩

/-- C4: the tracker filename is the checkpoints directory joined with
`latest_checkpointed_iteration.txt`; `read_metadata` returns the parsed
iteration with `release = false` on positive-integer content, returns
`release = true` on the literal `release`, and terminates the process on any
other content (failed parse, or non-positive parsed value). -/
theorem tracker_filename_and_read_metadata (d s : String) (n : Int)
    (hd : d ≠ "") (hslash : d.data.getLast? ≠ some '/') :
    get_checkpoint_tracker_filename d
      = d ++ "/" ++ "latest_checkpointed_iteration.txt" ∧
    (pyIntOfString s = some n → 0 < n → read_metadata s = .ok n false) ∧
    read_metadata "release" = .ok 0 true ∧
    (pyIntOfString s = none → s ≠ "release" →
      read_metadata s = .exitProcess) ∧
    (pyIntOfString s = some n → n ≤ 0 → read_metadata s = .exitProcess) := by
  refine ⟨?_, ?_, by decide, ?_, ?_⟩
  · unfold get_checkpoint_tracker_filename osPathJoin
    rw [if_neg hd, if_neg hslash]
  · intro hp hpos
    unfold read_metadata
    rw [hp]
    simp [hpos]
  · intro hp hrel
    unfold read_metadata
    rw [hp, if_neg hrel]
  · intro hp hle
    unfold read_metadata
    rw [hp]
    simp [show ¬ (0 : Int) < n by omega]

/-- Witness for C4 at directory `ckpts` and contents `7`, `release”,
`banana` and `0`. -/
theorem tracker_filename_and_read_metadata_witness :
    get_checkpoint_tracker_filename "ckpts"
      = "ckpts" ++ "/" ++ "latest_checkpointed_iteration.txt" ∧
    read_metadata "7" = .ok 7 false ∧
    read_metadata "release" = .ok 0 true ∧
    read_metadata "banana" = .exitProcess ∧
    read_metadata "0" = .exitProcess := by
  have h7 := tracker_filename_and_read_metadata "ckpts" "7" 7
    (by decide) (by decide)
  have hb := tracker_filename_and_read_metadata "ckpts" "banana" 0
    (by decide) (by decide)
  have h0 := tracker_filename_and_read_metadata "ckpts" "0" 0
    (by decide) (by decide)
  exact ⟨h7.1, h7.2.1 (by decide) (by decide), h7.2.2.1,
    hb.2.2.2.1 (by decide) (by decide), h0.2.2.2.2 (by decide) (by decide)⟩

/-- C1 counterexample: for a load request of keys A, B, C against a
checkpoint that saved exactly A and B, policy RETURN_ALL returns an empty
missing set and unexpected set C — not missing set C with an empty
unexpected set as the claim states. -/
theorem strict_return_all_counterexample :
    validate_load_keys ["A", "B", "C"] ["A", "B"] .RETURN_ALL
      = .returned ∅ {"C"} ∧
    validate_load_keys ["A", "B", "C"] ["A", "B"] .RETURN_ALL
      ≠ .returned {"C"} ∅ := by
  decide

/-- C1 (amended): for a load request of A, B, C against a checkpoint that
saved exactly A, B, policy RETURN_ALL returns missing keys = empty and
unexpected keys = C (the code counts requested-but-absent keys as
unexpected, and on-disk-but-unrequested keys as missing); and a load request
containing a spurious key D absent on disk under policy RAISE_UNEXPECTED
raises an exception whose message contains the text `Unexpected keys` and
names D, and does not contain `Missing keys`. -/
theorem strict_key_reconciliation_amended :
    validate_load_keys ["A", "B", "C"] ["A", "B"] .RETURN_ALL
      = .returned ∅ {"C"} ∧
    validate_load_keys ["A", "D"] ["A", "B"] .RAISE_UNEXPECTED
      = .raised (unexpectedMsg ["D"]) ∧
    strContainsSub (unexpectedMsg ["D"]) "Unexpected keys" = true ∧
    strContainsSub (unexpectedMsg ["D"]) "D" = true ∧
    strContainsSub (unexpectedMsg ["D"]) "Missing keys" = false := by
  decide

/-- C7: a shard requested with allow_shape_mismatch loaded against a smaller
on-disk global extent is zero-filled in the uncovered region, and loaded
against a larger on-disk extent is cropped to the requested extent; the same
requests without the flag raise a CheckpointingException. -/
theorem tensor_shape_mismatch_tolerance (disk : List Int) (r : Nat) :
    (disk.length < r →
      load_sharded_tensor disk r true
        = .ok (disk ++ List.replicate (r - disk.length) 0) ∧
      load_sharded_tensor disk r false
        = .error "CheckpointingException: global shape mismatch") ∧
    (r < disk.length →
      load_sharded_tensor disk r true = .ok (disk.take r) ∧
      load_sharded_tensor disk r false
        = .error "CheckpointingException: global shape mismatch") := by
  constructor
  · intro h
    constructor
    · unfold load_sharded_tensor
      rw [if_neg (by simp)]
      rw [reshard_copy_eq, List.take_of_length_le (by omega)]
    · unfold load_sharded_tensor
      rw [if_pos ⟨by simp, by omega⟩]
  · intro h
    constructor
    · unfold load_sharded_tensor
      rw [if_neg (by simp)]
      rw [reshard_copy_eq]
      have : r - disk.length = 0 := by omega
      rw [this]
      simp
    · unfold load_sharded_tensor
      rw [if_pos ⟨by simp, by omega⟩]

/-- Witness for C7 at on-disk content `[5, 6]`, requested extents 3 and 1. -/
theorem tensor_shape_mismatch_tolerance_witness :
    load_sharded_tensor [5, 6] 3 true = .ok [5, 6, 0] ∧
    load_sharded_tensor [5, 6] 1 true = .ok [5] ∧
    load_sharded_tensor [5, 6] 3 false
      = .error "CheckpointingException: global shape mismatch" ∧
    load_sharded_tensor [5, 6] 1 false
      = .error "CheckpointingException: global shape mismatch" := by
  have h3 := (tensor_shape_mismatch_tolerance [5, 6] 3).1 (by decide)
  have h1 := (tensor_shape_mismatch_tolerance [5, 6] 1).2 (by decide)
  exact ⟨h3.1, h1.1, h3.2, h1.2⟩

/-- C2 counterexample: at `mismatchArgs` the checkpoint topology differs
from the current run, yet the optimizer sub-state is still requested rather
than skipped, and the load fails with a RuntimeError — contradicting the
claim that each sub-state is skipped with a warning and that the load never
fails because of the topology mismatch. -/
theorem topology_mismatch_counterexample :
    mismatchArgs.ckpt_tp ≠ mismatchArgs.run_tp ∧
    (torch_dist_reconcile mismatchArgs).optim_requested = true ∧
    (torch_dist_reconcile mismatchArgs).raised = true := by
  decide

/-- C2 (amended): for a torch_dist checkpoint whose recorded (TP, PP)
topology differs from the current run, the RNG sub-state is skipped with a
printed warning and the rerun sub-state is skipped (with a printed warning
whenever the load does not fail first), but the optimizer sub-state is not
skipped — it is requested exactly when optimizer loading is enabled — and
the load fails with a RuntimeError exactly when a distributed optimizer is
in use and the checkpoint sharding type is not fully_sharded_model_space. -/
theorem topology_mismatch_amended (a : ReconcileArgs)
    (h : ¬ (a.ckpt_tp = a.run_tp ∧ a.ckpt_pp = a.run_pp)) :
    (torch_dist_reconcile a).rng_requested = false ∧
    LoadWarning.rngIgnored ∈ (torch_dist_reconcile a).warnings ∧
    (torch_dist_reconcile a).rerun_requested = false ∧
    ((torch_dist_reconcile a).raised = false →
      LoadWarning.rerunIgnored ∈ (torch_dist_reconcile a).warnings) ∧
    (torch_dist_reconcile a).optim_requested
      = (!a.release && !a.finetune && !a.no_load_optim
          && !a.ckpt_no_save_optim) ∧
    ((torch_dist_reconcile a).raised = true ↔
      ((torch_dist_reconcile a).optim_requested = true ∧
        a.use_distributed_optimizer = true ∧
        resolved_sharding_type a ≠ "fully_sharded_model_space")) := by
  have hb : (a.ckpt_tp == a.run_tp && a.ckpt_pp == a.run_pp) = false := by
    apply Bool.eq_false_iff.mpr
    intro ht
    simp only [Bool.and_eq_true, beq_iff_eq] at ht
    exact h ht
  unfold torch_dist_reconcile
  rw [hb]
  simp only [Bool.false_and, Bool.not_false, Bool.and_true, if_neg]
  split
  case isTrue hr =>
    refine ⟨rfl, by simp, rfl, by simp, rfl, ?_⟩
    simp only [Bool.and_eq_true, bne_iff_ne, true_iff] at hr ⊢
    tauto
  case isFalse hr =>
    refine ⟨rfl, by simp, by simp [hb], fun hx => by simp [hb], rfl, ?_⟩
    constructor
    · intro habs
      exact absurd habs (by simp)
    · rintro ⟨h1, h2, h3⟩
      have h1' : (!a.release && !a.finetune && !a.no_load_optim
          && !a.ckpt_no_save_optim) = true := h1
      exact absurd (by rw [h1', h2, bne_iff_ne.mpr h3]; rfl) hr

/-- Witness for the amended C2 at `mismatchNoOptArgs`. -/
theorem topology_mismatch_amended_witness :
    (torch_dist_reconcile mismatchNoOptArgs).rng_requested = false ∧
    LoadWarning.rngIgnored ∈ (torch_dist_reconcile mismatchNoOptArgs).warnings ∧
    (torch_dist_reconcile mismatchNoOptArgs).rerun_requested = false ∧
    ((torch_dist_reconcile mismatchNoOptArgs).raised = false →
      LoadWarning.rerunIgnored ∈ (torch_dist_reconcile mismatchNoOptArgs).warnings) ∧
    (torch_dist_reconcile mismatchNoOptArgs).optim_requested
      = (!mismatchNoOptArgs.release && !mismatchNoOptArgs.finetune
          && !mismatchNoOptArgs.no_load_optim
          && !mismatchNoOptArgs.ckpt_no_save_optim) ∧
    ((torch_dist_reconcile mismatchNoOptArgs).raised = true ↔
      ((torch_dist_reconcile mismatchNoOptArgs).optim_requested = true ∧
        mismatchNoOptArgs.use_distributed_optimizer = true ∧
        resolved_sharding_type mismatchNoOptArgs
          ≠ "fully_sharded_model_space")) :=
  topology_mismatch_amended mismatchNoOptArgs (by decide)

/-- C3: when a non-persistent checkpoint exists (its resolved iteration is
not -1; resolved iterations are always at least -1), it is loaded instead
of the persistent one exactly when its iteration is at least the persistent
tracker iteration; otherwise a warning is printed and the persistent
checkpoint is loaded. Stated for the standard configuration without a
user-forced `ckpt_step`. -/
theorem non_persistent_choice (a : BaseLoadArgs)
    (hnp : a.non_persistent_iteration ≠ -1)
    (hnp2 : -1 ≤ a.non_persistent_iteration)
    (hstep : a.ckpt_step = none)
    (htr : a.tracker_exists = true) :
    ((load_base_checkpoint a).result
        = .nonPersistent a.non_persistent_iteration
      ↔ a.tracker_iteration ≤ a.non_persistent_iteration) ∧
    (a.non_persistent_iteration < a.tracker_iteration →
      (load_base_checkpoint a).result
          = .persistent a.tracker_iteration a.tracker_release ∧
      LoadWarning.nonPersistentOlder ∈ (load_base_checkpoint a).warnings) := by
  unfold load_base_checkpoint
  rw [hstep, htr]
  simp only [if_true]
  by_cases hge : a.tracker_iteration ≤ a.non_persistent_iteration
  · rw [if_pos ⟨hnp, hge⟩]
    exact ⟨by simp [hge], fun hlt => absurd hge (by omega)⟩
  · rw [if_neg (by tauto)]
    have hiter : ¬ (a.tracker_iteration = -1) := by omega
    rw [if_pos hnp, if_neg hiter]
    refine ⟨⟨fun habs => by simp at habs, fun hle => absurd hle hge⟩, ?_⟩
    intro _
    exact ⟨rfl, by simp⟩

/-- Witness for C3 at the two concrete configurations. -/
theorem non_persistent_choice_witness :
    (load_base_checkpoint npNewerArgs).result = .nonPersistent 5 ∧
    (load_base_checkpoint npOlderArgs).result = .persistent 7 false ∧
    LoadWarning.nonPersistentOlder ∈ (load_base_checkpoint npOlderArgs).warnings := by
  have h1 := non_persistent_choice npNewerArgs (by decide) (by decide) rfl rfl
  have h2 := non_persistent_choice npOlderArgs (by decide) (by decide) rfl rfl
  exact ⟨h1.1.mpr (by decide), (h2.2 (by decide)).1, (h2.2 (by decide)).2⟩

/-- C6: when no tracker file and no non-persistent checkpoint is found and
the exit-on-missing-checkpoint flag is not set, a warning is printed and the
sentinel is returned, so `load_checkpoint` returns iteration 0 and 0
floating-point operations; with the flag set, the process exits instead. -/
theorem missing_checkpoint_behavior (a : BaseLoadArgs)
    (hnp : a.non_persistent_iteration = -1)
    (htr : a.tracker_exists = false)
    (hstep : a.ckpt_step = none)
    (hrank : a.rank0 = false) :
    (a.exit_on_missing_checkpoint = false →
      (load_base_checkpoint a).result = .noCheckpoint ∧
      LoadWarning.metadataNotFound ∈ (load_base_checkpoint a).warnings ∧
      load_checkpoint_missing_behavior a = .returns 0 0) ∧
    (a.exit_on_missing_checkpoint = true →
      (load_base_checkpoint a).result = .exitProcess ∧
      load_checkpoint_missing_behavior a = .exited) := by
  unfold load_checkpoint_missing_behavior load_base_checkpoint
  rw [hnp, htr, hstep, hrank]
  constructor
  · intro hex
    rw [hex]
    simp
  · intro hex
    rw [hex]
    simp

/-- Witness for C6 at the two concrete configurations. -/
theorem missing_checkpoint_behavior_witness :
    (load_base_checkpoint missingArgs).result = .noCheckpoint ∧
    load_checkpoint_missing_behavior missingArgs = .returns 0 0 ∧
    load_checkpoint_missing_behavior missingExitArgs = .exited := by
  have h1 := missing_checkpoint_behavior missingArgs rfl rfl rfl rfl
  have h2 := missing_checkpoint_behavior missingExitArgs rfl rfl rfl rfl
  exact ⟨(h1.1 rfl).1, (h1.1 rfl).2.2, (h2.2 rfl).2⟩

/-- C9: for every iteration N, `get_checkpoint_name` with return_base_dir
returns the checkpoints path joined with `iter_` and the 7-digit
zero-padded iteration (or `release` for a release checkpoint); otherwise it
nests a per-rank directory `mp_rank_` with the 2-digit tensor rank, plus the
3-digit pipeline rank with pipeline parallelism, plus the 3-digit expert
rank when expert parallelism is active, and ends with the basename
`model_optim_rng.pt`. Stated for a nonempty checkpoints path that does not
end with a separator. -/
theorem checkpoint_name_layout (cp bn : String) (N tp ppr er : Nat)
    (pipeP expP : Bool) (h1 : cp ≠ "")
    (h2 : cp.data.getLast? ≠ some '/') :
    get_checkpoint_name cp N false pipeP tp ppr expP er true bn
      = cp ++ "/" ++ ("iter_" ++ padZeros 7 N) ∧
    get_checkpoint_name cp N true pipeP tp ppr expP er true bn
      = cp ++ "/" ++ "release" ∧
    get_checkpoint_name cp N false false tp ppr false er false
        "model_optim_rng.pt"
      = cp ++ "/" ++ ("iter_" ++ padZeros 7 N) ++ "/"
          ++ ("mp_rank_" ++ padZeros 2 tp) ++ "/" ++ "model_optim_rng.pt" ∧
    get_checkpoint_name cp N false true tp ppr false er false
        "model_optim_rng.pt"
      = cp ++ "/" ++ ("iter_" ++ padZeros 7 N) ++ "/"
          ++ ("mp_rank_" ++ padZeros 2 tp ++ "_" ++ padZeros 3 ppr)
          ++ "/" ++ "model_optim_rng.pt" ∧
    get_checkpoint_name cp N false false tp ppr true er false
        "model_optim_rng.pt"
      = cp ++ "/" ++ ("iter_" ++ padZeros 7 N) ++ "/"
          ++ ("mp_rank_" ++ padZeros 2 tp) ++ "_" ++ padZeros 3 er
          ++ "/" ++ "model_optim_rng.pt" ∧
    get_checkpoint_name cp N false true tp ppr true er false
        "model_optim_rng.pt"
      = cp ++ "/" ++ ("iter_" ++ padZeros 7 N) ++ "/"
          ++ ("mp_rank_" ++ padZeros 2 tp ++ "_" ++ padZeros 3 ppr)
          ++ "_" ++ padZeros 3 er ++ "/" ++ "model_optim_rng.pt" := by
  have hjoin1 : osPathJoin cp ("iter_" ++ padZeros 7 N)
      = cp ++ "/" ++ ("iter_" ++ padZeros 7 N) := osPathJoin_eq _ _ h1 h2
  have hrel : osPathJoin cp "release" = cp ++ "/" ++ "release" :=
    osPathJoin_eq _ _ h1 h2
  have hx1_ne : (cp ++ "/" ++ ("iter_" ++ padZeros 7 N)) ≠ "" :=
    append_ne_empty _ _ (append_ne_empty _ _ (padZeros_ne_empty 7 N))
  have hx1_last :
      (cp ++ "/" ++ ("iter_" ++ padZeros 7 N)).data.getLast? ≠ some '/' :=
    ends_with_pad_getLast?_ne (cp ++ "/") "iter_" 7 N
  have hj2 : osPathJoin (cp ++ "/" ++ ("iter_" ++ padZeros 7 N))
        ("mp_rank_" ++ padZeros 2 tp)
      = cp ++ "/" ++ ("iter_" ++ padZeros 7 N) ++ "/"
          ++ ("mp_rank_" ++ padZeros 2 tp) :=
    osPathJoin_eq _ _ hx1_ne hx1_last
  have hj2p : osPathJoin (cp ++ "/" ++ ("iter_" ++ padZeros 7 N))
        ("mp_rank_" ++ padZeros 2 tp ++ "_" ++ padZeros 3 ppr)
      = cp ++ "/" ++ ("iter_" ++ padZeros 7 N) ++ "/"
          ++ ("mp_rank_" ++ padZeros 2 tp ++ "_" ++ padZeros 3 ppr) :=
    osPathJoin_eq _ _ hx1_ne hx1_last
  have hx2_ne : (cp ++ "/" ++ ("iter_" ++ padZeros 7 N) ++ "/"
      ++ ("mp_rank_" ++ padZeros 2 tp)) ≠ "" :=
    append_ne_empty _ _ (append_ne_empty _ _ (padZeros_ne_empty 2 tp))
  have hx2_last : (cp ++ "/" ++ ("iter_" ++ padZeros 7 N) ++ "/"
      ++ ("mp_rank_" ++ padZeros 2 tp)).data.getLast? ≠ some '/' :=
    ends_with_pad_getLast?_ne
      (cp ++ "/" ++ ("iter_" ++ padZeros 7 N) ++ "/") "mp_rank_" 2 tp
  have hx2p_ne : (cp ++ "/" ++ ("iter_" ++ padZeros 7 N) ++ "/"
      ++ ("mp_rank_" ++ padZeros 2 tp ++ "_" ++ padZeros 3 ppr)) ≠ "" :=
    append_ne_empty _ _ (append_ne_empty _ _ (padZeros_ne_empty 3 ppr))
  have hx2p_last : (cp ++ "/" ++ ("iter_" ++ padZeros 7 N) ++ "/"
      ++ ("mp_rank_" ++ padZeros 2 tp ++ "_" ++ padZeros 3 ppr)).data.getLast?
        ≠ some '/' :=
    ends_with_pad_getLast?_ne (cp ++ "/" ++ ("iter_" ++ padZeros 7 N) ++ "/")
      ("mp_rank_" ++ padZeros 2 tp ++ "_") 3 ppr
  refine ⟨?_, ?_, ?_, ?_, ?_, ?_⟩
  · show osPathJoin cp ("iter_" ++ padZeros 7 N) = _
    rw [hjoin1]
  · show osPathJoin cp "release" = _
    rw [hrel]
  · show osPathJoin (osPathJoin (osPathJoin cp ("iter_" ++ padZeros 7 N))
        ("mp_rank_" ++ padZeros 2 tp)) "model_optim_rng.pt" = _
    rw [hjoin1, hj2, osPathJoin_eq _ _ hx2_ne hx2_last]
  · show osPathJoin (osPathJoin (osPathJoin cp ("iter_" ++ padZeros 7 N))
        ("mp_rank_" ++ padZeros 2 tp ++ "_" ++ padZeros 3 ppr))
        "model_optim_rng.pt" = _
    rw [hjoin1, hj2p, osPathJoin_eq _ _ hx2p_ne hx2p_last]
  · show osPathJoin (osPathJoin (osPathJoin cp ("iter_" ++ padZeros 7 N))
        ("mp_rank_" ++ padZeros 2 tp) ++ "_" ++ padZeros 3 er)
        "model_optim_rng.pt" = _
    rw [hjoin1, hj2,
      osPathJoin_eq _ _ (append_ne_empty _ _ (padZeros_ne_empty 3 er))
        (ends_pad_getLast?_ne _ 3 er)]
  · show osPathJoin (osPathJoin (osPathJoin cp ("iter_" ++ padZeros 7 N))
        ("mp_rank_" ++ padZeros 2 tp ++ "_" ++ padZeros 3 ppr)
          ++ "_" ++ padZeros 3 er) "model_optim_rng.pt" = _
    rw [hjoin1, hj2p,
      osPathJoin_eq _ _ (append_ne_empty _ _ (padZeros_ne_empty 3 er))
        (ends_pad_getLast?_ne _ 3 er)]

/-- Witness for C9 at path `ckpts`, iteration 5, tensor rank 1, pipeline
rank 2, expert rank 3, including fully evaluated path strings. -/
theorem checkpoint_name_layout_witness :
    get_checkpoint_name "ckpts" 5 false false 1 2 false 3 true
        "model_optim_rng.pt"
      = "ckpts" ++ "/" ++ ("iter_" ++ padZeros 7 5) ∧
    get_checkpoint_name "ckpts" 5 false false 1 2 false 3 false
        "model_optim_rng.pt"
      = "ckpts" ++ "/" ++ ("iter_" ++ padZeros 7 5) ++ "/"
          ++ ("mp_rank_" ++ padZeros 2 1) ++ "/" ++ "model_optim_rng.pt" ∧
    get_checkpoint_name "ckpts" 5 false false 1 2 false 3 true
        "model_optim_rng.pt" = "ckpts/iter_0000005" ∧
    get_checkpoint_name "ckpts" 5 false false 1 2 false 3 false
        "model_optim_rng.pt" = "ckpts/iter_0000005/mp_rank_01/model_optim_rng.pt" ∧
    get_checkpoint_name "ckpts" 5 false true 1 2 true 3 false
        "model_optim_rng.pt"
      = "ckpts/iter_0000005/mp_rank_01_002_003/model_optim_rng.pt" := by
  have h := checkpoint_name_layout "ckpts" "model_optim_rng.pt" 5 1 2 3
    false false (by decide) (by decide)
  exact ⟨h.1, h.2.2.1, by decide, by decide, by decide⟩

/-- C8: saving a ShardedTensorFactory whose build function produces three
independently keyed parts each equal to the base tensor and whose merge
function is sum, then loading it back, yields three times the base
tensor. -/
theorem factory_merge_sum_roundtrip (base : List Int) :
    factory_load (factory3 "D" base) (factory_save (factory3 "D" base))
      = base.map (fun x => 3 * x) := by
  have : factory_load (factory3 "D" base) (factory_save (factory3 "D" base))
      = sumTensors [base, base, base] := by
    simp [factory_load, factory_save, factory3, ckpt_lookup, List.find?]
  rw [this, sumTensors_three]

end Megatron
